import Mathlib

/-!
Verification of the couchbase-lite-core session-control core
(`src/Replicator/c4Replicator.cc`, `src/C/c4Base.cc`) against its
natural-language specification.

Strings and slices are modelled as `List Char`; C byte-level predicates
(`islower`, `findByteNotIn`, `findByteOrEnd`) are modelled on characters,
which is faithful for the ASCII data these functions handle.
-/

namespace C4

/-- Index of the first occurrence of `c` in the list, or the length if
absent.  Models `slice::findByteOrEnd`, which returns a pointer to the
byte or to the end of the slice (never null). -/
def findByteOrEnd (c : Char) : List Char → Nat
  | [] => 0
  | x :: xs => if x = c then 0 else 1 + findByteOrEnd c xs

/-- Models `isValidScheme` of c4Replicator.cc: the scheme is one of
"ws", "wss", "blip", "blips". -/
def isValidScheme (s : List Char) : Bool :=
  s = ['w', 's'] || s = ['w', 's', 's'] ||
  s = ['b', 'l', 'i', 'p'] || s = ['b', 'l', 'i', 'p', 's']

/-- The character set of `c4repl_isValidDatabaseName`: the lowercase
letters, the digits, and the seven symbols underscore, dollar, the two
parentheses, plus, minus, slash. -/
def dbNameChars : List Char :=
  ['a','b','c','d','e','f','g','h','i','j','k','l','m','n','o','p','q','r',
   's','t','u','v','w','x','y','z','0','1','2','3','4','5','6','7','8','9',
   '_','$','(',')','+','-','/']

/-- C-locale `islower` on a byte: true exactly for 'a'..'z'. -/
def isLowerC (c : Char) : Bool := 'a' ≤ c && c ≤ 'z'

/-- Models `c4repl_isValidDatabaseName`: nonempty, length < 240, first
character lowercase, no byte outside `dbNameChars`
(`!findByteNotIn(...)`). -/
def c4repl_isValidDatabaseName (name : List Char) : Bool :=
  decide (0 < name.length) && decide (name.length < 240) &&
  (match name with
   | [] => false
   | c :: _ => isLowerC c) &&
  name.all (fun c => dbNameChars.contains c)

/-- The spec's own wording of database-name validity: length strictly
between 0 and 240, first character a lowercase ASCII letter, every
character in the allowed set. -/
def isValidDatabaseNameSpec (name : List Char) : Prop :=
  0 < name.length ∧ name.length < 240 ∧
  (∃ c rest, name = c :: rest ∧ isLowerC c = true) ∧
  (∀ c ∈ name, c ∈ dbNameChars)

/-- C `isspace` in the default locale. -/
def isCSpace (c : Char) : Bool :=
  c = ' ' || c = '\t' || c = '\n' || c = '\x0b' || c = '\x0c' || c = '\r'

/-- Decimal value of a digit string. -/
def digitsToNat (ds : List Char) : Nat :=
  ds.foldl (fun acc c => acc * 10 + (c.toNat - 48)) 0

/-- Models C++ `std::stoi` on a string: skip leading whitespace, accept
one optional sign, then a nonempty run of decimal digits (trailing
garbage ignored).  `none` models a thrown `invalid_argument` (no digits)
or `out_of_range` (outside the 32-bit int range); both are caught by the
caller's `catch (...)`. -/
def stoi (s : List Char) : Option Int :=
  let s1 := s.dropWhile isCSpace
  let signAndRest : Bool × List Char :=
    match s1 with
    | '-' :: r => (true, r)
    | '+' :: r => (false, r)
    | _ => (false, s1)
  let ds := signAndRest.2.takeWhile Char.isDigit
  if ds.isEmpty then none
  else
    let v : Int := (digitsToNat ds : Int)
    let i : Int := if signAndRest.1 then -v else v
    if i < -2147483648 ∨ 2147483647 < i then none else some i

/-- The four output fields of a `C4Address`; `none` means the field was
never written by `c4repl_parseURL`. -/
structure PartialAddress where
  scheme : Option (List Char) := none
  hostname : Option (List Char) := none
  port : Option Nat := none
  path : Option (List Char) := none
deriving DecidableEq, Repr

/-- Result of `c4repl_parseURL`: the boolean return value plus the state
of the output parameters (`*address` fields and `*dbName`) when it
returns. -/
structure ParseURLResult where
  ok : Bool
  address : PartialAddress
  dbName : Option (List Char) := none
deriving DecidableEq, Repr

/-- The tail of `c4repl_parseURL` from line 186 on (common to the
explicit-port and default-port paths): set the hostname up to
`hostEnd`, move past the first slash, fail on an empty path, strip one
leading and one trailing slash, set the database name and validate
it. -/
def parseURLHost (a3 : PartialAddress) (hostEnd : Nat) (str : List Char)
    (slash : Nat) : ParseURLResult :=
  let a4 := { a3 with hostname := some (str.take hostEnd) }
  let str := str.drop slash
  if str.isEmpty then ⟨false, a4, none⟩
  else
    let a5 := { a4 with path := some ['/'] }
    let str := if str.head? = some '/' then str.drop 1 else str
    let str := if str.getLast? = some '/' then str.dropLast else str
    ⟨c4repl_isValidDatabaseName str, a5, some str⟩

/-- Models `c4repl_parseURL` line by line.  Output fields are threaded
explicitly so that partially populated results of failing parses are
observable, exactly as the C function leaves them in the caller's
`C4Address` / `C4String`. -/
def c4repl_parseURL (url : List Char) : ParseURLResult :=
  let str := url
  let colon := findByteOrEnd ':' str
  let scheme := str.take colon
  let a1 : PartialAddress := { scheme := some scheme }
  if ¬ isValidScheme scheme then ⟨false, a1, none⟩
  else
    -- address->port = (colon[-1] == 's') ? 443 : 80
    let a2 := { a1 with port := some (if scheme.getLast? = some 's' then 443 else 80) }
    let str := str.drop colon
    if ¬ (str.take 3 = [':', '/', '/']) then ⟨false, a2, none⟩
    else
      let str := str.drop 3
      let colon2 := findByteOrEnd ':' str
      let slash := findByteOrEnd '/' str
      if colon2 < slash then
        match stoi ((str.take slash).drop (colon2 + 1)) with
        | none => ⟨false, a2, none⟩
        | some p =>
            if p < 0 ∨ 65535 < p then ⟨false, a2, none⟩
            else parseURLHost { a2 with port := some p.toNat } colon2 str slash
      else parseURLHost a2 slash str slash


/-- The slice `(colon+1, slash)` that `c4repl_parseURL` hands to `stoi`
when the remainder after `scheme://` has a colon before the first
slash: the explicit port substring. -/
def portSubstring (url : List Char) : List Char :=
  let rest := (url.drop (findByteOrEnd ':' url)).drop 3
  (rest.take (findByteOrEnd '/' rest)).drop (findByteOrEnd ':' rest + 1)

/-- Whether the URL carries an explicit port: in the remainder after
`scheme://`, a colon occurs before the first slash (the `colon < slash`
test of `c4repl_parseURL`). -/
def hasExplicitPort (url : List Char) : Bool :=
  let rest := (url.drop (findByteOrEnd ':' url)).drop 3
  decide (findByteOrEnd ':' rest < findByteOrEnd '/' rest)

/-! ### Error records and classification (`src/C/c4Base.cc`) -/

/-- A `C4Error` record: domain and code are C `int`s, `internal_info` a
`uint32_t` kept as a `Nat` already reduced mod `2^32`. -/
structure C4Error where
  domain : Int
  code : Int
  internal_info : Nat
deriving DecidableEq, Repr

/-- `kC4MaxErrorDomainPlus1`: the error-set arrays in c4Base.cc carry
seven per-domain entries. -/
def kC4MaxErrorDomainPlus1 : Nat := 7

/-- The network error domain: index 5 of the per-domain arrays
(`kTransientNetwork` / `kUnreachableNetwork` sit in slot 5). -/
def NetworkDomain : Int := 5

/-- The WebSocket error domain: index 6 of the per-domain arrays. -/
def WebSocketDomain : Int := 6

/-- The POSIX error domain: index 2 of the per-domain arrays. -/
def POSIXDomain : Int := 2

/-- Modelled from the spec: `kC4NetErrDNSFailure` comes from a header not
in this tree; its concrete value is irrelevant to the classification
claims, which only need that the same code appears in both network
lists. -/
def kC4NetErrDNSFailure : Int := 1

/-- Modelled from the spec: `kC4NetErrUnknownHost`, from the same header
as `kC4NetErrDNSFailure`. -/
def kC4NetErrUnknownHost : Int := 2

/-- `websocket::kCodeGoingAway`, the standard WebSocket close code 1001. -/
def kCodeGoingAway : Int := 1001

/-- Linux values of the POSIX errno constants used in the transient set:
ENETRESET, ECONNABORTED, ECONNRESET, ETIMEDOUT, ECONNREFUSED. -/
def kTransientPOSIX : List Int := [102, 103, 104, 110, 111]

/-- `kTransientNetwork` of c4Base.cc. -/
def kTransientNetwork : List Int := [kC4NetErrDNSFailure]

/-- `kTransientWebSocket` of c4Base.cc. -/
def kTransientWebSocket : List Int := [408, 429, 500, 502, 503, 504, kCodeGoingAway]

/-- Linux values of the POSIX errno constants in the unreachable set:
ENETDOWN, ENETUNREACH, ENOTCONN, ETIMEDOUT, EHOSTDOWN, EHOSTUNREACH,
EADDRNOTAVAIL. -/
def kUnreachablePOSIX : List Int := [100, 101, 107, 110, 112, 113, 99]

/-- `kUnreachableNetwork` of c4Base.cc. -/
def kUnreachableNetwork : List Int := [kC4NetErrDNSFailure, kC4NetErrUnknownHost]

/-- `kTransient`: the per-domain array of code lists (nullptr ↦ none),
indexed by domain 0..6. -/
def kTransient : Nat → Option (List Int)
  | 2 => some kTransientPOSIX
  | 5 => some kTransientNetwork
  | 6 => some kTransientWebSocket
  | _ => none

/-- `kUnreachable`: the per-domain array for network dependence. -/
def kUnreachable : Nat → Option (List Int)
  | 2 => some kUnreachablePOSIX
  | 5 => some kUnreachableNetwork
  | _ => none

/-- C cast of an `int` to `unsigned` (32-bit). -/
def toUInt32Nat (i : Int) : Nat := (i % 4294967296).toNat

/-- Models `errorIsInSet`: code nonzero, `(unsigned)domain` below
`kC4MaxErrorDomainPlus1`, the domain's code list registered, and the
code found before the 0 sentinel (the lists above omit the sentinel;
no list contains 0, so the scan equals list membership). -/
def errorIsInSet (err : C4Error) (es : Nat → Option (List Int)) : Bool :=
  if err.code ≠ 0 ∧ toUInt32Nat err.domain < kC4MaxErrorDomainPlus1 then
    match es (toUInt32Nat err.domain) with
    | some codes => codes.contains err.code
    | none => false
  else false

/-- Models `c4error_mayBeTransient`. -/
def c4error_mayBeTransient (err : C4Error) : Bool :=
  errorIsInSet err kTransient

/-- Models `c4error_mayBeNetworkDependent`. -/
def c4error_mayBeNetworkDependent (err : C4Error) : Bool :=
  errorIsInSet err kUnreachable

/-! ### The diagnostics ring buffer (`src/C/c4Base.cc`) -/

/-- `kMaxErrorMessagesToSave`: the buffer keeps the last 10 error
message strings (per the comment on `sErrorMessages`). -/
def kMaxErrorMessagesToSave : Nat := 10

/-- The shared mutable state of the diagnostics buffer:
`sFirstErrorMessageInternalInfo` and `sErrorMessages`. -/
structure ErrorMessageBuffer where
  firstToken : Nat
  messages : List String
deriving DecidableEq, Repr

/-- The initial state: `sFirstErrorMessageInternalInfo = 1000`, empty
deque. -/
def initialErrorMessageBuffer : ErrorMessageBuffer := ⟨1000, []⟩

/-- Models `recordError`: fills the error record; a non-empty message is
appended to the deque, the oldest entry evicted and the first-token
lower bound advanced when capacity is exceeded, and the record's
`internal_info` set to the new entry's token. -/
def recordError (buf : ErrorMessageBuffer) (domain code : Int) (message : String) :
    ErrorMessageBuffer × C4Error :=
  if message = ("") then (buf, ⟨domain, code, 0⟩)
  else
    let msgs := buf.messages ++ [message]
    let buf' : ErrorMessageBuffer :=
      if kMaxErrorMessagesToSave < msgs.length then ⟨buf.firstToken + 1, msgs.drop 1⟩
      else ⟨buf.firstToken, msgs⟩
    (buf', ⟨domain, code, (buf'.firstToken + buf'.messages.length - 1) % 4294967296⟩)

/-- Record a sequence of errors left to right, collecting the returned
records. -/
def recordAll (buf : ErrorMessageBuffer) : List String → ErrorMessageBuffer × List C4Error
  | [] => (buf, [])
  | m :: ms =>
      let r := recordError buf 1 1 m
      let rest := recordAll r.1 ms
      (rest.1, r.2 :: rest.2)

/-- C cast of a `uint32_t` value to `int32_t` (wrapping). -/
def toInt32 (n : Nat) : Int :=
  let m := n % 4294967296
  if m < 2147483648 then (m : Int) else (m : Int) - 4294967296

/-- Models `lookupErrorMessage`: `int32_t index = internal_info -
sFirstErrorMessageInternalInfo` in wrapping `uint32_t` arithmetic; the
stored message when `0 ≤ index < size`, else the empty string. -/
def lookupErrorMessage (buf : ErrorMessageBuffer) (err : C4Error) : String :=
  let index := toInt32 (err.internal_info + 4294967296 - buf.firstToken % 4294967296)
  if 0 ≤ index ∧ index < (buf.messages.length : Int) then
    (buf.messages.get? index.toNat).getD ("")
  else ("")

/-! ### The session controller (`src/Replicator/c4Replicator.cc`) -/

/-- `C4ReplicatorActivityLevel`. -/
inductive ActivityLevel | stopped | offline | connecting | idle | busy
deriving DecidableEq, Repr

/-- `C4ReplicatorMode`. -/
inductive ReplicatorMode | disabled | passive | oneShot | continuous
deriving DecidableEq, Repr

/-- Which engine produced a notification: `repl == _replicator` or
`repl == _otherReplicator` (the only two delegates of a loopback
controller). -/
inductive EngineRole | primary | peer
deriving DecidableEq, Repr

/-- The controller state that `replicatorStatusChanged` reads and
writes: `_status.level`, `_otherLevel`, and whether `_selfRetain` still
holds the self-reference. -/
structure LoopbackControllerState where
  level : ActivityLevel
  otherLevel : ActivityLevel
  selfRetain : Bool
deriving DecidableEq, Repr

/-- Models `C4Replicator::replicatorStatusChanged`: a notification from
the primary updates the external status (and triggers `notify()`,
returned as the Bool); one from the peer updates only `_otherLevel`.
Afterwards, if both levels are `stopped`, `_selfRetain` is cleared. -/
def replicatorStatusChanged (st : LoopbackControllerState)
    (sender : EngineRole) (newLevel : ActivityLevel) :
    LoopbackControllerState × Bool :=
  let st1 :=
    match sender with
    | .primary => { st with level := newLevel }
    | .peer => { st with otherLevel := newLevel }
  let notified := sender = EngineRole.primary
  if st1.level = ActivityLevel.stopped ∧ st1.otherLevel = ActivityLevel.stopped then
    ({ st1 with selfRetain := false }, notified)
  else (st1, notified)

/-- The mode configuration a `C4Replicator` hands to its engines: the
primary always gets the private constructor's `{push, pull}`; for a
local-to-local session the second engine is built with
`{kC4Passive, kC4Passive}`. -/
structure C4ReplicatorModel where
  primaryModes : ReplicatorMode × ReplicatorMode
  otherModes : Option (ReplicatorMode × ReplicatorMode)
deriving DecidableEq, Repr

/-- The remote constructor: one engine with the caller's modes. -/
def mkC4ReplicatorRemote (push pull : ReplicatorMode) : C4ReplicatorModel :=
  ⟨(push, pull), none⟩

/-- The local-to-local constructor: the primary engine carries the
caller's modes, `_otherReplicator` is built with
`{kC4Passive, kC4Passive}`. -/
def mkC4ReplicatorLocal (push pull : ReplicatorMode) : C4ReplicatorModel :=
  ⟨(push, pull), some (ReplicatorMode.passive, ReplicatorMode.passive)⟩

/-- Models the control flow of `c4repl_new`: the push/pull precondition,
the self-replication check for the local path and the scheme check for
the remote path.  Databases are abstract ids; `c4db_openAgain` failure
is an external effect and not modelled. -/
def c4repl_new (db : Nat) (serverScheme : List Char) (otherLocalDB : Option Nat)
    (push pull : ReplicatorMode) : Option C4ReplicatorModel :=
  if push = ReplicatorMode.disabled ∧ pull = ReplicatorMode.disabled then none
  else
    match otherLocalDB with
    | some other =>
        if other = db then none
        else some (mkC4ReplicatorLocal push pull)
    | none =>
        if isValidScheme serverScheme then some (mkC4ReplicatorRemote push pull)
        else none

end C4

namespace C4

/-! ### Shared helper lemmas -/

/-- The tail of the parse never leaves a populated database name with an
unpopulated address field: its input address already has scheme and port
set, and it sets hostname (and, past the empty-path check, path) before
the database name. -/
lemma parseURLHost_shape (a3 : PartialAddress) (hostEnd : Nat) (str : List Char)
    (slash : Nat) (h1 : a3.scheme.isSome) (h2 : a3.port.isSome) :
    (parseURLHost a3 hostEnd str slash).dbName = none ∨
    ((parseURLHost a3 hostEnd str slash).address.scheme.isSome ∧
     (parseURLHost a3 hostEnd str slash).address.hostname.isSome ∧
     (parseURLHost a3 hostEnd str slash).address.port.isSome ∧
     (parseURLHost a3 hostEnd str slash).address.path.isSome) := by
  simp only [parseURLHost]
  split_ifs <;> simp_all

/-- Every result of `c4repl_parseURL` either has no database name
written, or has all four address fields written. -/
lemma parseURL_shape (url : List Char) :
    (c4repl_parseURL url).dbName = none ∨
    ((c4repl_parseURL url).address.scheme.isSome ∧
     (c4repl_parseURL url).address.hostname.isSome ∧
     (c4repl_parseURL url).address.port.isSome ∧
     (c4repl_parseURL url).address.path.isSome) := by
  simp only [c4repl_parseURL]
  repeat' split
  all_goals first
    | exact parseURLHost_shape _ _ _ _ (by simp) (by simp)
    | simp

/-- Stripping the trailing slash (as `c4repl_parseURL` does) preserves
database-name validity: the first character is a lowercase letter, so a
name ending in a slash has length at least two, and dropping its last
character keeps the length bounds, the first character and the
character set. -/
lemma validName_strip (name : List Char)
    (h : c4repl_isValidDatabaseName name = true) :
    c4repl_isValidDatabaseName
      (if name.getLast? = some '/' then name.dropLast else name) = true := by
  split_ifs with hl
  · unfold c4repl_isValidDatabaseName at *
    cases name with
    | nil => simp at h
    | cons c rest =>
      cases rest with
      | nil =>
          simp at hl
          subst hl
          simp [isLowerC] at h
      | cons d rest2 =>
          simp only [List.dropLast_cons₂]
          simp only [Bool.and_eq_true, decide_eq_true_eq, List.all_eq_true] at h ⊢
          obtain ⟨⟨⟨hlen1, hlen2⟩, hlow⟩, hall⟩ := h
          refine ⟨⟨⟨by simp, ?_⟩, hlow⟩, ?_⟩
          · simp at hlen2 ⊢
            omega
          · intro x hx
            rcases List.mem_cons.1 hx with rfl | hx2
            · exact hall x (List.mem_cons_self _ _)
            · exact hall x (List.mem_cons_of_mem c (List.dropLast_subset _ hx2))
  · exact h

/-! ### Claim theorems -/

/-- C1: after any status notification handled by
`replicatorStatusChanged`, the controller's self-reference is released
if and only if both the primary engine's level and the peer engine's
level equal `stopped`; while either is not `stopped` the self-reference
is kept. -/
theorem selfRetain_release_iff_both_stopped (st : LoopbackControllerState)
    (sender : EngineRole) (lvl : ActivityLevel) (h : st.selfRetain = true) :
    (replicatorStatusChanged st sender lvl).1.selfRetain = false ↔
      ((replicatorStatusChanged st sender lvl).1.level = ActivityLevel.stopped ∧
       (replicatorStatusChanged st sender lvl).1.otherLevel = ActivityLevel.stopped) := by
  cases sender <;>
    · simp only [replicatorStatusChanged]
      split_ifs with hc <;> simp_all

/-- Witness for C1: a primary `stopped` notification reaching a state
whose peer is already stopped releases the self-reference. -/
theorem selfRetain_release_iff_both_stopped_witness :
    (replicatorStatusChanged ⟨ActivityLevel.busy, ActivityLevel.stopped, true⟩
        EngineRole.primary ActivityLevel.stopped).1.selfRetain = false ↔
      ((replicatorStatusChanged ⟨ActivityLevel.busy, ActivityLevel.stopped, true⟩
          EngineRole.primary ActivityLevel.stopped).1.level = ActivityLevel.stopped ∧
       (replicatorStatusChanged ⟨ActivityLevel.busy, ActivityLevel.stopped, true⟩
          EngineRole.primary ActivityLevel.stopped).1.otherLevel = ActivityLevel.stopped) :=
  selfRetain_release_iff_both_stopped ⟨ActivityLevel.busy, ActivityLevel.stopped, true⟩
    EngineRole.primary ActivityLevel.stopped rfl

/-- C2 counterexample: on the invalid database name "Bad" at the end of
an otherwise well-formed URL, `c4repl_parseURL` fails but leaves every
output populated: scheme, hostname, port, path and the database name —
refuting the claim that failure leaves the outputs unpopulated. -/
theorem parseURL_invalid_name_populates_outputs :
    (c4repl_parseURL (String.data ("ws://host/Bad"))).ok = false ∧
    (c4repl_parseURL (String.data ("ws://host/Bad"))).dbName = some (String.data ("Bad")) ∧
    (c4repl_parseURL (String.data ("ws://host/Bad"))).address.scheme =
      some (String.data ("ws")) ∧
    (c4repl_parseURL (String.data ("ws://host/Bad"))).address.hostname =
      some (String.data ("host")) ∧
    (c4repl_parseURL (String.data ("ws://host/Bad"))).address.port = some 443 ∧
    (c4repl_parseURL (String.data ("ws://host/Bad"))).address.path = some ['/'] := by
  decide

/-- C2 (amended): when `c4repl_parseURL` returns failure after having
populated the output database name — which is exactly the
invalid-database-name failure at the end of an otherwise well-formed
URL — all the Address output fields (scheme, hostname, port, path) have
been populated as well; failure is signalled only through the boolean
result, not by leaving the outputs untouched. -/
theorem parseURL_failure_with_dbName_populates_address (url : List Char)
    (hfail : (c4repl_parseURL url).ok = false)
    (hname : (c4repl_parseURL url).dbName ≠ none) :
    (c4repl_parseURL url).address.scheme.isSome ∧
    (c4repl_parseURL url).address.hostname.isSome ∧
    (c4repl_parseURL url).address.port.isSome ∧
    (c4repl_parseURL url).address.path.isSome := by
  rcases parseURL_shape url with h | h
  · exact absurd h hname
  · exact h

/-- Witness for the amended C2, at the concrete failing parse of
"ws://host/Bad". -/
theorem parseURL_failure_with_dbName_populates_address_witness :
    (c4repl_parseURL (String.data ("ws://host/Bad"))).address.scheme.isSome ∧
    (c4repl_parseURL (String.data ("ws://host/Bad"))).address.hostname.isSome ∧
    (c4repl_parseURL (String.data ("ws://host/Bad"))).address.port.isSome ∧
    (c4repl_parseURL (String.data ("ws://host/Bad"))).address.path.isSome :=
  parseURL_failure_with_dbName_populates_address (String.data ("ws://host/Bad"))
    (by decide) (by decide)

/-- C3: for every URL with an explicit port (a colon before the first
slash after `scheme://`), the parse succeeds only if `stoi` accepts the
port substring with a value in [0, 65535]; if `stoi` rejects it or the
value is out of that range, `c4repl_parseURL` returns failure. -/
theorem parseURL_explicit_port_range (url : List Char)
    (hp : hasExplicitPort url = true) :
    ((c4repl_parseURL url).ok = true →
      ∃ p : Int, stoi (portSubstring url) = some p ∧ 0 ≤ p ∧ p ≤ 65535) ∧
    ((stoi (portSubstring url) = none ∨
        (∃ p : Int, stoi (portSubstring url) = some p ∧ (p < 0 ∨ 65535 < p))) →
      (c4repl_parseURL url).ok = false) := by
  simp only [hasExplicitPort, decide_eq_true_eq] at hp
  simp only [c4repl_parseURL, portSubstring]
  repeat' split
  all_goals first
    | exact ⟨fun h => absurd h (by simp), fun _ => rfl⟩
    | exact absurd hp (by assumption)
    | (rename_i p heq hrange
       refine ⟨fun _ => ⟨p, heq, by omega⟩, fun hbad => ?_⟩
       rcases hbad with hnone | ⟨q, hq, hq2⟩
       · rw [heq] at hnone; cases hnone
       · rw [heq] at hq; injection hq with e; subst e; omega)

/-- Witness for C3 at the URL "ws://h:1234/db", which carries an
explicit in-range port. -/
theorem parseURL_explicit_port_range_witness :
    hasExplicitPort (String.data ("ws://h:1234/db")) = true ∧
    (((c4repl_parseURL (String.data ("ws://h:1234/db"))).ok = true →
      ∃ p : Int, stoi (portSubstring (String.data ("ws://h:1234/db"))) = some p ∧
        0 ≤ p ∧ p ≤ 65535) ∧
     ((stoi (portSubstring (String.data ("ws://h:1234/db"))) = none ∨
        (∃ p : Int, stoi (portSubstring (String.data ("ws://h:1234/db"))) = some p ∧
          (p < 0 ∨ 65535 < p))) →
      (c4repl_parseURL (String.data ("ws://h:1234/db"))).ok = false)) :=
  ⟨by decide, parseURL_explicit_port_range (String.data ("ws://h:1234/db")) (by decide)⟩

/-- C4: `c4repl_isValidDatabaseName` returns true exactly when the name
has length strictly between 0 and 240, starts with a lowercase ASCII
letter, and consists only of characters from the allowed set; violating
any single rule makes it return false. -/
theorem isValidDatabaseName_iff_spec (name : List Char) :
    c4repl_isValidDatabaseName name = true ↔ isValidDatabaseNameSpec name := by
  unfold c4repl_isValidDatabaseName isValidDatabaseNameSpec
  cases name with
  | nil => simp
  | cons c rest =>
      simp [List.all_eq_true, decide_eq_true_iff]
      tauto

end C4

namespace C4

/-- C5: recording eleven errors with distinct non-empty messages leaves
the buffer holding only the last ten; the eleven issued tokens are the
consecutive values 1000..1010 (monotonically increasing), looking up the
first record's token yields the empty string (it fell below the advanced
valid-token lower bound), and each of the last ten records' tokens
resolves to its recorded message. -/
theorem ring_buffer_eleven_messages
    (m0 m1 m2 m3 m4 m5 m6 m7 m8 m9 m10 : String)
    (h0 : m0 ≠ ("")) (h1 : m1 ≠ ("")) (h2 : m2 ≠ ("")) (h3 : m3 ≠ (""))
    (h4 : m4 ≠ ("")) (h5 : m5 ≠ ("")) (h6 : m6 ≠ ("")) (h7 : m7 ≠ (""))
    (h8 : m8 ≠ ("")) (h9 : m9 ≠ ("")) (h10 : m10 ≠ ("")) :
    ((recordAll initialErrorMessageBuffer
        [m0,m1,m2,m3,m4,m5,m6,m7,m8,m9,m10]).2.map C4Error.internal_info =
      [1000,1001,1002,1003,1004,1005,1006,1007,1008,1009,1010]) ∧
    lookupErrorMessage
        (recordAll initialErrorMessageBuffer [m0,m1,m2,m3,m4,m5,m6,m7,m8,m9,m10]).1
        ((recordAll initialErrorMessageBuffer
          [m0,m1,m2,m3,m4,m5,m6,m7,m8,m9,m10]).2.getD 0 ⟨0,0,0⟩) = ("") ∧
    (∀ i : Fin 11, 1 ≤ i.val →
      lookupErrorMessage
          (recordAll initialErrorMessageBuffer [m0,m1,m2,m3,m4,m5,m6,m7,m8,m9,m10]).1
          ((recordAll initialErrorMessageBuffer
            [m0,m1,m2,m3,m4,m5,m6,m7,m8,m9,m10]).2.getD i ⟨0,0,0⟩)
        = [m0,m1,m2,m3,m4,m5,m6,m7,m8,m9,m10].getD i ("")) := by
  have hr : recordAll initialErrorMessageBuffer [m0,m1,m2,m3,m4,m5,m6,m7,m8,m9,m10] =
      (⟨1001, [m1,m2,m3,m4,m5,m6,m7,m8,m9,m10]⟩,
       [⟨1,1,1000⟩,⟨1,1,1001⟩,⟨1,1,1002⟩,⟨1,1,1003⟩,⟨1,1,1004⟩,⟨1,1,1005⟩,
        ⟨1,1,1006⟩,⟨1,1,1007⟩,⟨1,1,1008⟩,⟨1,1,1009⟩,⟨1,1,1010⟩]) := by
    simp [recordAll, recordError, initialErrorMessageBuffer, kMaxErrorMessagesToSave,
          h0, h1, h2, h3, h4, h5, h6, h7, h8, h9, h10]
  rw [hr]
  refine ⟨by norm_num, ?_, ?_⟩
  · norm_num [lookupErrorMessage, toInt32]
  · intro i hi
    fin_cases i <;> norm_num [lookupErrorMessage, toInt32] at * <;> rfl

/-- Witness for C5 with the eleven concrete messages "e1".."e11". -/
theorem ring_buffer_eleven_messages_witness :
    ((recordAll initialErrorMessageBuffer
        [("e1"),("e2"),("e3"),("e4"),("e5"),("e6"),("e7"),("e8"),("e9"),("e10"),("e11")]).2.map
          C4Error.internal_info =
      [1000,1001,1002,1003,1004,1005,1006,1007,1008,1009,1010]) ∧
    lookupErrorMessage
        (recordAll initialErrorMessageBuffer
          [("e1"),("e2"),("e3"),("e4"),("e5"),("e6"),("e7"),("e8"),("e9"),("e10"),("e11")]).1
        ((recordAll initialErrorMessageBuffer
          [("e1"),("e2"),("e3"),("e4"),("e5"),("e6"),("e7"),("e8"),("e9"),("e10"),("e11")]).2.getD 0 ⟨0,0,0⟩)
      = ("") ∧
    (∀ i : Fin 11, 1 ≤ i.val →
      lookupErrorMessage
          (recordAll initialErrorMessageBuffer
            [("e1"),("e2"),("e3"),("e4"),("e5"),("e6"),("e7"),("e8"),("e9"),("e10"),("e11")]).1
          ((recordAll initialErrorMessageBuffer
            [("e1"),("e2"),("e3"),("e4"),("e5"),("e6"),("e7"),("e8"),("e9"),("e10"),("e11")]).2.getD i ⟨0,0,0⟩)
        = [("e1"),("e2"),("e3"),("e4"),("e5"),("e6"),("e7"),("e8"),("e9"),("e10"),("e11")].getD i ("")) :=
  ring_buffer_eleven_messages ("e1") ("e2") ("e3") ("e4") ("e5") ("e6") ("e7")
    ("e8") ("e9") ("e10") ("e11")
    (by decide) (by decide) (by decide) (by decide) (by decide) (by decide)
    (by decide) (by decide) (by decide) (by decide) (by decide)

/-- C6: the DNS-failure error of the network domain is classified as
both possibly transient and possibly network-dependent — the two
categories overlap on this code. -/
theorem dns_failure_transient_and_network_dependent :
    c4error_mayBeTransient ⟨NetworkDomain, kC4NetErrDNSFailure, 0⟩ = true ∧
    c4error_mayBeNetworkDependent ⟨NetworkDomain, kC4NetErrDNSFailure, 0⟩ = true := by
  decide

/-- C7: for both classification functions and any error record, a zero
code, a domain outside the known range (after the C cast to unsigned),
or a domain with no registered code set for that function yields false.
Both functions are pure lookups by construction in this model. -/
theorem classification_false_cases (err : C4Error) :
    (err.code = 0 →
      c4error_mayBeTransient err = false ∧ c4error_mayBeNetworkDependent err = false) ∧
    (kC4MaxErrorDomainPlus1 ≤ toUInt32Nat err.domain →
      c4error_mayBeTransient err = false ∧ c4error_mayBeNetworkDependent err = false) ∧
    (kTransient (toUInt32Nat err.domain) = none → c4error_mayBeTransient err = false) ∧
    (kUnreachable (toUInt32Nat err.domain) = none → c4error_mayBeNetworkDependent err = false) := by
  unfold c4error_mayBeTransient c4error_mayBeNetworkDependent errorIsInSet
  refine ⟨fun h => ?_, fun h => ?_, fun h => ?_, fun h => ?_⟩
  · simp [h]
  · constructor <;> (rw [if_neg]; push_neg; intro _; omega)
  · split_ifs with hc
    · simp [h]
    · rfl
  · split_ifs with hc
    · simp [h]
    · rfl

/-- Witness for C7: domain 3 (no registered set in either table) with
code 0 classifies false under all four cases. -/
theorem classification_false_cases_witness :
    (c4error_mayBeTransient ⟨3, 0, 0⟩ = false ∧
     c4error_mayBeNetworkDependent ⟨3, 0, 0⟩ = false) ∧
    (c4error_mayBeTransient ⟨3, 0, 0⟩ = false) ∧
    (c4error_mayBeNetworkDependent ⟨3, 0, 0⟩ = false) :=
  ⟨(classification_false_cases ⟨3, 0, 0⟩).1 rfl,
   (classification_false_cases ⟨3, 0, 0⟩).2.2.1 rfl,
   (classification_false_cases ⟨3, 0, 0⟩).2.2.2 rfl⟩

/-- C8: every successful local-to-local creation through `c4repl_new`
builds the peer engine with both modes passive and the primary engine
with exactly the caller's requested push and pull modes. -/
theorem local_session_secondary_passive (db other : Nat) (scheme : List Char)
    (push pull : ReplicatorMode) (r : C4ReplicatorModel)
    (h : c4repl_new db scheme (some other) push pull = some r) :
    r.otherModes = some (ReplicatorMode.passive, ReplicatorMode.passive) ∧
    r.primaryModes = (push, pull) := by
  simp only [c4repl_new] at h
  split_ifs at h <;> cases h <;> exact ⟨rfl, rfl⟩

/-- Witness for C8: a concrete successful local-to-local creation. -/
theorem local_session_secondary_passive_witness :
    (mkC4ReplicatorLocal ReplicatorMode.oneShot ReplicatorMode.continuous).otherModes =
        some (ReplicatorMode.passive, ReplicatorMode.passive) ∧
    (mkC4ReplicatorLocal ReplicatorMode.oneShot ReplicatorMode.continuous).primaryModes =
        (ReplicatorMode.oneShot, ReplicatorMode.continuous) :=
  local_session_secondary_passive 0 1 [] ReplicatorMode.oneShot ReplicatorMode.continuous _
    (by decide)

/-- C9 (failing input): `c4repl_parseURL` decides the default port by
testing only whether the character before the colon is 's', so the
non-secure scheme "ws" — which ends in 's' — gets default port 443, not
the 80 the spec prescribes; the wss example of the claim behaves as
specified (explicit port kept, trailing slash stripped). -/
theorem parseURL_ws_default_port_is_443 :
    (c4repl_parseURL (String.data ("ws://host/dbname"))).ok = true ∧
    (c4repl_parseURL (String.data ("ws://host/dbname"))).address.port = some 443 ∧
    (c4repl_parseURL (String.data ("ws://host/dbname"))).dbName =
      some (String.data ("dbname")) ∧
    (c4repl_parseURL (String.data ("wss://host:1234/dbname/"))).ok = true ∧
    (c4repl_parseURL (String.data ("wss://host:1234/dbname/"))).address.port = some 1234 ∧
    (c4repl_parseURL (String.data ("wss://host:1234/dbname/"))).dbName =
      some (String.data ("dbname")) := by
  decide

/-- C10: a URL with a valid scheme, an empty host part and a valid
database-name path segment parses successfully, with the hostname
output populated as the empty string — the parser never requires a
non-empty host. -/
theorem parseURL_empty_hostname_ok (s name : List Char)
    (hs : isValidScheme s = true)
    (hn : c4repl_isValidDatabaseName name = true) :
    (c4repl_parseURL (s ++ [':', '/', '/', '/'] ++ name)).ok = true ∧
    (c4repl_parseURL (s ++ [':', '/', '/', '/'] ++ name)).address.hostname = some [] := by
  have hstrip := validName_strip name hn
  have hs' : s = ['w','s'] ∨ s = ['w','s','s'] ∨
      s = ['b','l','i','p'] ∨ s = ['b','l','i','p','s'] := by
    simpa [isValidScheme, or_assoc] using hs
  rcases hs' with h | h | h | h <;> subst h <;>
    simp [c4repl_parseURL, parseURLHost, findByteOrEnd, isValidScheme, hstrip]

/-- Witness for C10: "ws:///db" parses successfully with an empty
hostname. -/
theorem parseURL_empty_hostname_ok_witness :
    (c4repl_parseURL (['w','s'] ++ [':', '/', '/', '/'] ++ ['d','b'])).ok = true ∧
    (c4repl_parseURL (['w','s'] ++ [':', '/', '/', '/'] ++ ['d','b'])).address.hostname =
      some [] :=
  parseURL_empty_hostname_ok ['w','s'] ['d','b'] (by decide) (by decide)

end C4
